import Mathlib

/-!
Shallow embedding of the rssync daemon sources (src/main.rs, src/protocol.rs,
src/file_list.rs) and verification of the specification claims about them.

Machine integers are modelled as `Nat` with explicit `% 2^w` where the source
truncates; byte buffers are `List Nat`; fallible paths (Rust panics such as
`todo!()` and arithmetic underflow in debug builds) are modelled with `Option`.
-/

namespace Rssync

/-- The `i`-th little-endian byte of a natural number (byte 0 is the least
significant), mirroring `u64::to_le_bytes` indexing. -/
def leByte (v i : Nat) : Nat := v / 256 ^ i % 256

/-- The low `n` little-endian bytes of a value, `[byte 0, byte 1, ...]`. -/
def lowBytes (v n : Nat) : List Nat := (List.range n).map (leByte v)

/-- `u32::to_le_bytes`: four little-endian bytes. -/
def u32le (n : Nat) : List Nat := [n % 256, n / 256 % 256, n / 65536 % 256, n / 16777216 % 256]

/-!
## Varint codec — `Rsyncd::write_varlong` (src/main.rs lines 331-357)

```rust
fn write_varlong(value: u64, min_size: usize, buffer: &mut Vec<u8>) {
    let mut bytes = [0u8; 9];
    let mut byte_count = 8;
    // bytes[1..=8] = value.to_le_bytes()
    while byte_count > min_size && bytes[byte_count] == 0 { byte_count -= 1; }
    let bit_magic = 1 << (7 - byte_count + min_size);
    let last_byte = bytes[byte_count];
    if last_byte >= bit_magic { byte_count += 1; bytes[0] = !(bit_magic - 1); }
    else if byte_count > min_size { bytes[0] = bytes[byte_count] | !((bit_magic << 1) - 1) }
    else { bytes[0] = bytes[byte_count]; }
    buffer.write(&bytes[..byte_count]).ok();
}
```

Note `bytes[i] = leByte value (i - 1)` for `1 ≤ i ≤ 8`; slicing `bytes[..byte_count]`
therefore emits the marker byte `bytes[0]` followed by the low `byte_count - 1`
value bytes in little-endian order.  `7 - byte_count + min_size` is `usize`
arithmetic evaluated as `(7 - byte_count) + min_size`: when `byte_count = 8`
(value ≥ 2^56, or `min_size ≥ 8`) the subtraction underflows and panics in a
debug build, modelled here as `none`.
-/

/-- The `while byte_count > min_size && bytes[byte_count] == 0` countdown,
started at 8.  `bytes[bc] = leByte value (bc - 1)`. -/
def byteCountLoop (value min_size : Nat) : Nat → Nat
  | 0 => 0
  | bc + 1 =>
    if min_size < bc + 1 ∧ leByte value bc = 0 then byteCountLoop value min_size bc
    else bc + 1

/-- `Rsyncd::write_varlong`.  `!(x)` on `u8` is `255 - x`, so the marker byte
`!(bit_magic - 1)` is `256 - bit_magic` and `!((bit_magic << 1) - 1)` is
`256 - 2 * bit_magic`. -/
def write_varlong (value min_size : Nat) : Option (List Nat) :=
  let bc := byteCountLoop value min_size 8
  if 8 ≤ bc then
    none
  else
    let bit_magic := 2 ^ (7 - bc + min_size)
    let last_byte := leByte value (bc - 1)
    if bit_magic ≤ last_byte then
      some ((256 - bit_magic) :: lowBytes value bc)
    else if min_size < bc then
      some ((last_byte ||| (256 - 2 * bit_magic)) :: lowBytes value (bc - 1))
    else
      some (last_byte :: lowBytes value (bc - 1))

example : write_varlong 0 3 = some [0, 0, 0] := by decide
example : write_varlong 255 3 = some [0, 255, 0] := by decide
example : write_varlong 420 3 = some [0, 164, 1] := by decide
example : write_varlong 3735928559 3 = some [192, 239, 190, 173, 222] := by decide
example : write_varlong 1099511627775 3 = some [224, 255, 255, 255, 255, 255] := by decide

/-!
## Socket layer — `RsyncSocket` (src/protocol.rs)

The socket wraps a TCP duplex; the read side is modelled as a `List Nat` byte
stream that operations consume from the front, returning the unread remainder.
Write-side operations return the bytes they emit.  `std::io` failures on write
are not modelled (writes always succeed); a `read_exact` that hits end-of-file
is modelled as `ReceiveError.ioError` with the stream position unspecified
beyond what the claims need.
-/

/-- `protocol.rs` `enum SendError` (the `Io` payload is dropped). -/
inductive SendError where
  | ioError
  | nonDataWhileMultiplexed
deriving DecidableEq, Repr

/-- `protocol.rs` `enum ReceiveError` (the `Io` payload is dropped). -/
inductive ReceiveError where
  | ioError
  | readWhileMultiplexed
  | unsupportedMessageType
  | rawReadWhileMultiplexed
  | readMessageWhileNotMultiplexed
  | invalid
deriving DecidableEq, Repr

/-- `protocol.rs` `enum RsyncMessage`; `Data` carries its payload bytes. -/
inductive RsyncMessage where
  | data (d : List Nat)
  | xferError
  | info
  | error
  | warning
  | socketError
  | utf8Error
  | log
  | client
  | redo
  | stats
  | ioError
  | ioTimeout
  | noop
  | errorExit
  | success
  | deleted
  | noSend
  | invalid
deriving DecidableEq, Repr

/-- Outcome of a write-side operation: the bytes written on success, the error
on a checked failure, or the bytes written before a `todo!()` panic. -/
inductive SendOutcome where
  | ok (written : List Nat)
  | errored (e : SendError)
  | panicked (written : List Nat)
deriving DecidableEq, Repr

/-- `u8::wrapping_sub`. -/
def wrappingSub8 (a b : Nat) : Nat := (a + 256 - b % 256) % 256

/-- `RsyncSocket::msg_to_header` (src/protocol.rs lines 65-79): a 4-byte header
whose low three bytes are the payload length little-endian and whose top byte
is the wire tag `0x07` for `Data`; every other variant leaves the header as
the four zero bytes it was initialised to. -/
def msg_to_header (message : RsyncMessage) : List Nat :=
  match message with
  | .data d =>
    let length := d.length
    [length % 256, length / 256 % 256, length / 65536 % 256, 0x07]
  | _ => [0, 0, 0, 0]

/-- `RsyncSocket::msg_from_header` (src/protocol.rs lines 81-86): returns
`(tag, data_bytes)` where `tag = data[3].wrapping_sub(0x07)` and
`data_bytes = data[2] << 16 | data[1] << 8 | data[0]`. -/
def msg_from_header (data : List Nat) : Nat × Nat :=
  let data_bytes := (data.getD 2 0) <<< 16 ||| (data.getD 1 0) <<< 8 ||| data.getD 0 0
  let tag := wrappingSub8 (data.getD 3 0) 0x07
  (tag, data_bytes)

/-- `Read::read_exact` into a buffer of `n` bytes: `n` bytes from the front of
the stream, or `none` at end-of-file. -/
def readExact (n : Nat) (s : List Nat) : Option (List Nat × List Nat) :=
  if n ≤ s.length then some (s.take n, s.drop n) else none

/-- `BufRead::read_until`: reads up to and including the first delimiter byte,
or the whole stream if the delimiter never occurs before end-of-file. -/
def readUntil (delimiter : Nat) : List Nat → List Nat × List Nat
  | [] => ([], [])
  | b :: rest =>
    if b = delimiter then ([b], rest)
    else
      let (d, r) := readUntil delimiter rest
      (b :: d, r)

/-- `RsyncSocket::send_message` (src/protocol.rs lines 88-108), as a function
of the `multiplex_out` flag.  In raw mode only `Data` is legal and its payload
goes out verbatim; in multiplexed mode the 4-byte header is written first and
any variant other than `Data` then hits `todo!()`. -/
def send_message (multiplex_out : Bool) (message : RsyncMessage) : SendOutcome :=
  if multiplex_out = false then
    match message with
    | .data d => .ok d
    | _ => .errored .nonDataWhileMultiplexed
  else
    let header := msg_to_header message
    match message with
    | .data d => .ok (header ++ d)
    | _ => .panicked header

/-- `RsyncSocket::read_message` (src/protocol.rs lines 110-127), as a function
of the `multiplex_in` flag; returns the result and the remaining stream. -/
def read_message (multiplex_in : Bool) (s : List Nat) :
    Except ReceiveError RsyncMessage × List Nat :=
  if multiplex_in = false then
    (.error .readMessageWhileNotMultiplexed, s)
  else
    match readExact 4 s with
    | none => (.error .ioError, s)
    | some (header, rest) =>
      let (tag, len) := msg_from_header header
      if tag = 0 then
        match readExact len rest with
        | none => (.error .ioError, rest)
        | some (d, rest2) => (.ok (.data d), rest2)
      else (.error .unsupportedMessageType, rest)

/-- `RsyncSocket::read_raw_until` (src/protocol.rs lines 129-137), as a
function of the `multiplex_in` flag. -/
def read_raw_until (multiplex_in : Bool) (delimiter : Nat) (s : List Nat) :
    Except ReceiveError (List Nat) × List Nat :=
  if multiplex_in = false then
    let (d, r) := readUntil delimiter s
    (.ok d, r)
  else
    (.error .rawReadWhileMultiplexed, s)

/-- The two mode flags of `RsyncSocket` (src/protocol.rs lines 34-39). -/
structure RsyncSocketState where
  multiplexInFlag : Bool
  multiplexOutFlag : Bool
deriving DecidableEq, Repr

/-- `RsyncSocket::multiplex_in` (src/protocol.rs lines 58-60) — the accessor
returns `self.multiplex_out`, exactly as the source does. -/
def RsyncSocketState.multiplex_in (s : RsyncSocketState) : Bool := s.multiplexOutFlag

/-- `RsyncSocket::set_multiplex_in` (src/protocol.rs lines 61-63). -/
def RsyncSocketState.set_multiplex_in (s : RsyncSocketState) (mp : Bool) : RsyncSocketState :=
  { s with multiplexInFlag := mp }

/-- `RsyncSocket::multiplex_out` (src/protocol.rs lines 51-53). -/
def RsyncSocketState.multiplex_out (s : RsyncSocketState) : Bool := s.multiplexOutFlag

/-- `RsyncSocket::set_multiplex_out` (src/protocol.rs lines 54-56). -/
def RsyncSocketState.set_multiplex_out (s : RsyncSocketState) (mp : Bool) : RsyncSocketState :=
  { s with multiplexOutFlag := mp }

/-- `read_message` dispatched through the socket state: it branches on the
incoming flag field. -/
def RsyncSocketState.readMessageOn (sock : RsyncSocketState) (s : List Nat) :
    Except ReceiveError RsyncMessage × List Nat :=
  read_message sock.multiplexInFlag s

/-- `read_raw_until` dispatched through the socket state. -/
def RsyncSocketState.readRawUntilOn (sock : RsyncSocketState) (delimiter : Nat) (s : List Nat) :
    Except ReceiveError (List Nat) × List Nat :=
  read_raw_until sock.multiplexInFlag delimiter s

/-!
## File entries — `File`, `XferFlags` (src/file_list.rs) and
`Rsyncd::send_file_list` (src/main.rs lines 359-396)

Paths (`PathBuf`) are byte lists.  `File::is_directory` stats the filesystem
(`self.get_full_name().is_dir()`); that external answer is recorded in the
oracle field `isDir`.  `mode` is the `u32` POSIX `st_mode` (`Mode::mode()` in
file_list.rs, a plain `u32` in main.rs).
-/

/-- `enum NameType` (src/file_list.rs lines 83-89). -/
inductive NameType where
  | normal
  | slashEnding
  | dotDir
  | missing
deriving DecidableEq, Repr

/-- `NameType::to_u8`. -/
def NameType.toU8 : NameType → Nat
  | .normal => 0x00
  | .slashEnding => 0x01
  | .dotDir => 0x02
  | .missing => 0x03

/-- `NameType::try_from_u8`. -/
def NameType.tryFromU8 (data : Nat) : Option NameType :=
  match data with
  | 0x00 => some .normal
  | 0x01 => some .slashEnding
  | 0x02 => some .dotDir
  | 0x03 => some .missing
  | _ => none

/-- `struct File` (src/file_list.rs lines 113-122; the main.rs copy has the
same fields with `mode: u32`).  `flags` is the `FileFlags` bitmask; `isDir` is
the filesystem oracle behind `File::is_directory`. -/
structure File where
  dirname : List Nat
  basename : List Nat
  modtime : Nat
  filelen : Nat
  mode : Nat
  flags : Nat
  nameType : NameType
  isDir : Bool
deriving DecidableEq, Repr

/-- Byte length of `File::get_full_name()` (src/file_list.rs lines 150-154):
`dirname.push(basename)` inserts a separator byte when the dirname is
non-empty. -/
def File.fullNameLen (f : File) : Nat :=
  if f.dirname.isEmpty then f.basename.length else f.dirname.length + 1 + f.basename.length

/-- `XferFlags::for_file` (src/file_list.rs lines 32-48) as the resulting
bitmask (`TOP_DIR = 1 << 0`, `EXTENDED_FLAGS = 1 << 2`).  A full name longer
than 255 bytes hits `todo!()`, modelled as `none`.  The `_previous_file`
parameter is unused, exactly as in the source. -/
def XferFlags.for_file (f : File) (_previous_file : Option File) : Option Nat :=
  if 255 < f.fullNameLen then
    none
  else
    let flags : Nat := 0
    let flags := if flags = 0 ∧ f.isDir = false then flags ||| 1 else flags
    let flags := if 0xFF < flags then flags ||| 4 else flags
    some flags

/-- `XferFlags::write_data_bytes` (src/file_list.rs lines 50-57): the low
flag byte always travels, the second byte only under `EXTENDED_FLAGS`. -/
def XferFlags.write_data_bytes (flags : Nat) : List Nat :=
  [flags % 256] ++ (if flags &&& 4 = 4 then [flags / 256 % 256] else [])

/-- `File::write_data_bytes` (src/file_list.rs lines 125-148): xfer flags,
`l2` name-length byte (`name.len() as u8`), name bytes, varint file length
with `min_size = 3`, 4-byte little-endian mtime, 4-byte little-endian mode. -/
def File.write_data_bytes (f : File) : Option (List Nat) := do
  let flags ← XferFlags.for_file f none
  let varlen ← write_varlong f.filelen 3
  pure (XferFlags.write_data_bytes flags
    ++ [f.basename.length % 256] ++ f.basename
    ++ varlen ++ u32le f.modtime ++ u32le f.mode)

/-- The per-entry bytes pushed by the loop body of `Rsyncd::send_file_list`
(src/main.rs lines 361-383): hardcoded xfer-flag bytes `04 00`, the `l2`
name-length byte, name bytes, varint length, mtime, mode. -/
def entry_bytes (f : File) : Option (List Nat) :=
  (write_varlong f.filelen 3).map fun varlen =>
    [4, 0] ++ [f.basename.length % 256] ++ f.basename
      ++ varlen ++ u32le f.modtime ++ u32le f.mode

/-- `Rsyncd::msg_to_header` (src/main.rs lines 294-307) applied to
`RsyncMessage::Data { length }`. -/
def rsyncd_data_header (length : Nat) : List Nat :=
  [length % 256, length / 256 % 256, length / 65536 % 256, 0x07]

/-- The `data` buffer assembled by `Rsyncd::send_file_list` (src/main.rs lines
359-387): the per-entry bytes accumulated in order, then the single `0x00`
end-of-list sentinel pushed after the loop. -/
def send_file_list_data (file_list : List File) : Option (List Nat) :=
  (file_list.foldlM (fun acc f => (entry_bytes f).map (fun e => acc ++ e)) []).map
    (fun d => d ++ [0])

/-- The full wire output of `Rsyncd::send_file_list` (src/main.rs lines
388-391): the Data header for the buffer's length, then the buffer. -/
def send_file_list (file_list : List File) : Option (List Nat) :=
  (send_file_list_data file_list).map (fun d => rsyncd_data_header d.length ++ d)

/-!
## Textual preamble — `Rsyncd::read_line`, `Version::parse`,
`Rsyncd::read_init` (src/main.rs)
-/

/-- `enum VersionParseError` (src/main.rs lines 57-61). -/
inductive VersionParseError where
  | invalidVersionNumber
  | incompleteVersionSpecifier
deriving DecidableEq, Repr

/-- `enum QueryParseError` (src/main.rs lines 96-99). -/
inductive QueryParseError where
  | invalidQuery
deriving DecidableEq, Repr

/-- `enum ClientError` (src/main.rs lines 122-128). -/
inductive ClientError where
  | invalidHeader
  | versionParseError (e : VersionParseError)
  | invalidQuery (e : QueryParseError)
  | invalidInput
deriving DecidableEq, Repr

/-- `enum RsyncdError` (src/main.rs lines 204-210; `Io` and `Unsupported`
payloads dropped). -/
inductive RsyncdError where
  | ioError
  | clientError (e : ClientError)
  | lineTooLarge
  | unsupported
deriving DecidableEq, Repr

/-- `struct Version` (src/main.rs lines 28-32). -/
structure Version where
  major : Nat
  minor : Nat
deriving DecidableEq, Repr

/-- Is a byte a UTF-8 continuation byte (`0x80..=0xBF`)? -/
def isCont (b : Nat) : Bool := 0x80 ≤ b && b ≤ 0xBF

/-- UTF-8 validity of a byte sequence, as checked by
`std::str::from_utf8`. -/
def utf8Valid : List Nat → Bool
  | [] => true
  | b :: rest =>
    if b ≤ 0x7F then utf8Valid rest
    else if 0xC2 ≤ b && b ≤ 0xDF then
      match rest with
      | b2 :: r => isCont b2 && utf8Valid r
      | [] => false
    else if b = 0xE0 then
      match rest with
      | b2 :: b3 :: r => (0xA0 ≤ b2 && b2 ≤ 0xBF) && isCont b3 && utf8Valid r
      | _ => false
    else if (0xE1 ≤ b && b ≤ 0xEC) || b = 0xEE || b = 0xEF then
      match rest with
      | b2 :: b3 :: r => isCont b2 && isCont b3 && utf8Valid r
      | _ => false
    else if b = 0xED then
      match rest with
      | b2 :: b3 :: r => (0x80 ≤ b2 && b2 ≤ 0x9F) && isCont b3 && utf8Valid r
      | _ => false
    else if b = 0xF0 then
      match rest with
      | b2 :: b3 :: b4 :: r => (0x90 ≤ b2 && b2 ≤ 0xBF) && isCont b3 && isCont b4 && utf8Valid r
      | _ => false
    else if 0xF1 ≤ b && b ≤ 0xF3 then
      match rest with
      | b2 :: b3 :: b4 :: r => isCont b2 && isCont b3 && isCont b4 && utf8Valid r
      | _ => false
    else if b = 0xF4 then
      match rest with
      | b2 :: b3 :: b4 :: r => (0x80 ≤ b2 && b2 ≤ 0x8F) && isCont b3 && isCont b4 && utf8Valid r
      | _ => false
    else false

/-- `Rsyncd::read_line` (src/main.rs lines 219-228): `read_until` the
delimiter, then slice off the last byte with `data.len() - 1` — a `usize`
subtraction that underflows and panics (modelled `none`) when `read_until`
returned no bytes, i.e. on immediate end-of-file.  On success the line (minus
its final byte) is UTF-8-checked; the decoded string is represented by its
byte list. -/
def read_line (delimiter : Nat) (s : List Nat) :
    Option (Except RsyncdError (List Nat) × List Nat) :=
  let (data, rest) := readUntil delimiter s
  if data.isEmpty then
    none
  else
    let content := data.take (data.length - 1)
    if utf8Valid content then some (.ok content, rest)
    else some (.error (.clientError .invalidInput), rest)

/-- One step of the `str::split('.')` iterator: the characters before the
first `'.'`, and — when a `'.'` was found — the remainder after it
(`none` when the iterator is exhausted after this field). -/
def splitNext (r : List Char) : List Char × Option (List Char) :=
  match r.dropWhile (fun c => c != '.') with
  | [] => (r.takeWhile (fun c => c != '.'), none)
  | _ :: t => (r.takeWhile (fun c => c != '.'), some t)

/-- The digit string after `u32::from_str_radix`'s optional leading `'+'`
sign (a leading `'-'` is left in place and rejected as a non-digit). -/
def stripPlus (s : List Char) : List Char :=
  match s with
  | '+' :: t => t
  | _ => s

/-- Decimal value of a digit string. -/
def digitsVal (l : List Char) : Nat := l.foldl (fun a c => a * 10 + (c.toNat - 48)) 0

/-- `u32::from_str_radix(s, 10)`: optional `'+'`, then a non-empty run of
decimal digits whose value fits in 32 bits.  Checked per-digit overflow in the
source is equivalent to the final bound because the accumulator grows
monotonically. -/
def parseU32 (s : List Char) : Option Nat :=
  let ds := stripPlus s
  if ds.isEmpty then none
  else if ds.all Char.isDigit then
    if digitsVal ds < 2 ^ 32 then some (digitsVal ds) else none
  else none

/-- The claim's notion of "a decimal unsigned 32-bit number": a non-empty
string of decimal digits whose value fits in 32 bits. -/
def isDecimalU32 (s : List Char) : Bool :=
  !s.isEmpty && s.all Char.isDigit && decide (digitsVal s < 2 ^ 32)

/-- A decimal u32 allowing the optional leading `'+'` that
`u32::from_str_radix` accepts. -/
def isDecimalU32Opt (s : List Char) : Bool := isDecimalU32 (stripPlus s)

/-- Value of an (optionally `'+'`-signed) decimal field. -/
def decValOpt (s : List Char) : Nat := digitsVal (stripPlus s)

/-- `Version::parse` (src/main.rs lines 64-83): split on `'.'`, take the
first two fields; a missing second field is `IncompleteVersionSpecifier`;
either field failing `u32::from_str_radix(_, 10)` is
`InvalidVersionNumber`. -/
def Version.parse (data : List Char) : Except VersionParseError Version :=
  match splitNext data with
  | (_, none) => .error .incompleteVersionSpecifier
  | (f1, some r) =>
    match parseU32 f1, parseU32 (splitNext r).1 with
    | some vmaj, some vmin => .ok ⟨vmaj, vmin⟩
    | _, _ => .error .invalidVersionNumber

/-- The 9-character greeting header `"@RSYNCD: "`. -/
def greetingHeader : List Char := ['@', 'R', 'S', 'Y', 'N', 'C', 'D', ':', ' ']

/-- `Rsyncd::read_init` (src/main.rs lines 230-244) applied to the line it
read: lines not starting with `"@RSYNCD: "` are `InvalidHeader`; otherwise
the remainder after `split_at(9)` is parsed as a version. -/
def read_init (line : List Char) : Except RsyncdError Version :=
  if greetingHeader.isPrefixOf line then
    match Version.parse (line.drop 9) with
    | .ok v => .ok v
    | .error e => .error (.clientError (.versionParseError e))
  else
    .error (.clientError .invalidHeader)

example : read_init (greetingHeader ++ ['3', '1', '.', '0']) = .ok ⟨31, 0⟩ := by rfl
example : read_init (greetingHeader ++ ['+', '3', '1', '.', '0']) = .ok ⟨31, 0⟩ := by rfl
example : read_init (greetingHeader ++ ['3', '1']) =
    .error (.clientError (.versionParseError .incompleteVersionSpecifier)) := by rfl

/-!
## Concrete entries used as inputs
-/

/-- The claim C1 entry: basename `"."`, mtime 5, length 420, mode `0o40755`
(`= 16877 = 0x41ED`), empty flags, `DotDir`.  The entry is a directory, so the
filesystem oracle behind `File::is_directory` answers `true`. -/
def dotFile : File :=
  { dirname := [], basename := [46], modtime := 5, filelen := 420, mode := 16877,
    flags := 0, nameType := .dotDir, isDir := true }

/-- An entry whose basename is 256 bytes of `'a'`. -/
def longNameFile : File :=
  { dirname := [], basename := List.replicate 256 97, modtime := 0, filelen := 0,
    mode := 0, flags := 0, nameType := .normal, isDir := false }

/-- The directory entry of the example list in `main` (src/main.rs lines
456-464): mode there is the plain `u32` `0x1ED`. -/
def dotMainFile : File :=
  { dirname := [100, 111, 116], basename := [46], modtime := 5, filelen := 420, mode := 493,
    flags := 1, nameType := .dotDir, isDir := true }

/-!
## Claims
-/

/-- Claim C1 (counterexample): the entry `"."` does not serialize (via
`File::write_data_bytes`) to the claimed byte sequence, because the varint
field for length 420 is `00 A4 01` — marker byte first — not `A4 01 00`. -/
theorem c1_counterexample :
    File.write_data_bytes dotFile = some [0, 1, 46, 0, 164, 1, 5, 0, 0, 0, 237, 65, 0, 0] ∧
    ([0, 1, 46, 0, 164, 1, 5, 0, 0, 0, 237, 65, 0, 0] : List Nat) ≠
      [0, 1, 46, 164, 1, 0, 5, 0, 0, 0, 237, 65, 0, 0] := by
  exact ⟨by decide, by decide⟩

/-- Claim C1 (amended): the entry `{basename ".", mtime 5, length 420, mode
0o40755, flags {}, DotDir}`, serialized with no previous entry, emits exactly:
xfer-flag byte `00`, name length `01`, name `2E`, varint(420, min_size 3) =
`00 A4 01` (leading marker byte, then the low two value bytes little-endian),
mtime `05 00 00 00`, mode `ED 41 00 00`. -/
theorem c1_dot_entry_bytes :
    File.write_data_bytes dotFile =
      some ([0] ++ [1] ++ [46] ++ [0, 164, 1] ++ [5, 0, 0, 0] ++ [237, 65, 0, 0]) := by
  decide

/-- Claim C2 (counterexample): `encode(0xFF, min=3)` is `00 FF 00`, not the
claimed `FF 00 00`; and `encode(0xFFFFFFFFFF, min=3)` has leading byte `0xE0`
(three length bits set), not five length bits (`0xF8`). -/
theorem c2_counterexample :
    (write_varlong 255 3 = some [0, 255, 0] ∧ ([0, 255, 0] : List Nat) ≠ [255, 0, 0]) ∧
    (write_varlong 1099511627775 3 = some [224, 255, 255, 255, 255, 255] ∧ (224 : Nat) ≠ 248) := by
  decide

/-- Claim C2 (amended): for `min_size = 3` the encoder yields
`encode(0) = 00 00 00`, `encode(0xFF) = 00 FF 00`, `encode(0xDEADBEEF) =`
leading byte `0xC0` (two length bits set) followed by `EF BE AD DE`,
`encode(0xFFFFFFFFFF) =` leading byte `0xE0` (three length bits set) followed
by five `FF` bytes; and every emitted field is the leading marker byte
followed by the value's low `length - 1` bytes in little-endian order. -/
theorem c2_varint_widths :
    write_varlong 0 3 = some [0, 0, 0] ∧
    write_varlong 255 3 = some [0, 255, 0] ∧
    write_varlong 3735928559 3 = some [192, 239, 190, 173, 222] ∧
    write_varlong 1099511627775 3 = some [224, 255, 255, 255, 255, 255] ∧
    (∀ v out, write_varlong v 3 = some out → out.tail = lowBytes v (out.length - 1)) := by
  refine ⟨by decide, by decide, by decide, by decide, ?_⟩
  intro v out h
  simp only [write_varlong] at h
  split at h
  · exact Option.noConfusion h
  · split at h
    · obtain rfl := Option.some.injEq .. ▸ h.symm
      simp [lowBytes]
    · split at h
      · obtain rfl := Option.some.injEq .. ▸ h.symm
        simp [lowBytes]
      · obtain rfl := Option.some.injEq .. ▸ h.symm
        simp [lowBytes]

/-- Witness for C2 at the concrete value 420: the emitted field's tail is the
value's low bytes little-endian. -/
theorem c2_varint_widths_witness :
    ([0, 164, 1] : List Nat).tail = lowBytes 420 (([0, 164, 1] : List Nat).length - 1) :=
  c2_varint_widths.2.2.2.2 420 [0, 164, 1] (by decide)

/-- Claim C5: with the incoming side multiplexed, `read_raw_until` fails with
`RawReadWhileMultiplexed` leaving the stream untouched; with the incoming side
not multiplexed, `read_message` fails with `ReadMessageWhileNotMultiplexed`
leaving the stream untouched. -/
theorem c5_mode_discipline (delimiter : Nat) (s : List Nat) :
    read_raw_until true delimiter s = (.error .rawReadWhileMultiplexed, s) ∧
    read_message false s = (.error .readMessageWhileNotMultiplexed, s) :=
  ⟨rfl, rfl⟩

set_option maxRecDepth 4096 in
/-- Claim C6 (code evaluation): an entry whose basename is 256 bytes long
makes `XferFlags::for_file` hit `todo!()` — a panic, modelled `none` — before
any bytes are produced, rather than returning the `NameTooLong` error the
specification prescribes (no such variant exists in any error enum of the
source). -/
theorem c6_long_name_panics :
    XferFlags.for_file longNameFile none = none ∧
    File.write_data_bytes longNameFile = none := by
  exact ⟨by decide, by decide⟩

/-- Claim C9: `Rsyncd::read_line` is not total — on a stream that is at
end-of-file before any byte is read, `read_until` returns an empty buffer and
`data.len() - 1` underflows, so the function panics (modelled `none`) instead
of returning an error result. -/
theorem c9_read_line_eof_panics (delimiter : Nat) :
    read_line delimiter [] = none := rfl

/-- Claim C10: in multiplexed output mode, `send_message` on any variant other
than `Data` first writes the all-zero 4-byte header and then panics on the
`todo!()` branch; `Data` is the only variant that is sent without panicking. -/
theorem c10_nondata_mux_panics :
    (∀ message : RsyncMessage, (∀ d, message ≠ .data d) →
      send_message true message = .panicked [0, 0, 0, 0]) ∧
    (∀ d, send_message true (.data d) = .ok (msg_to_header (.data d) ++ d)) := by
  constructor
  · intro m hm
    cases m
    case data d => exact absurd rfl (hm d)
    all_goals rfl
  · intro d
    rfl

/-- Witness for C10: sending `Info` in multiplexed mode writes the zero header
and panics. -/
theorem c10_witness : send_message true .info = .panicked [0, 0, 0, 0] :=
  c10_nondata_mux_panics.1 .info (fun _ h => RsyncMessage.noConfusion h)

/-- Claim C8: the `multiplex_in()` accessor returns the outgoing flag.  After
`set_multiplex_in(true)` on a socket whose outgoing flag is `false`, the
accessor still answers `false`, while `read_raw_until` and `read_message`
branch on the (now `true`) incoming flag: the former fails with
`RawReadWhileMultiplexed` and the latter can no longer fail with
`ReadMessageWhileNotMultiplexed`. -/
theorem c8_multiplex_in_returns_out (sock : RsyncSocketState)
    (h : sock.multiplexOutFlag = false) :
    (sock.set_multiplex_in true).multiplex_in = false ∧
    (sock.set_multiplex_in true).multiplexInFlag = true ∧
    (∀ delimiter s, (sock.set_multiplex_in true).readRawUntilOn delimiter s =
      (.error .rawReadWhileMultiplexed, s)) ∧
    (∀ s, ((sock.set_multiplex_in true).readMessageOn s).1 ≠
      .error .readMessageWhileNotMultiplexed) := by
  refine ⟨h, rfl, fun delimiter s => rfl, ?_⟩
  intro s
  show (read_message true s).1 ≠ _
  unfold read_message
  rw [if_neg (by simp)]
  cases h4 : readExact 4 s with
  | none => simp [h4]
  | some pr =>
    obtain ⟨header, rest⟩ := pr
    simp only [h4]
    split
    · cases hl : readExact (msg_from_header header).2 rest with
      | none => simp [hl]
      | some pr2 => obtain ⟨d, rest2⟩ := pr2; simp [hl]
    · simp

/-- Witness for C8: on the all-raw socket, setting the incoming flag leaves
the accessor answering `false`. -/
theorem c8_witness :
    (RsyncSocketState.mk false false |>.set_multiplex_in true).multiplex_in = false :=
  (c8_multiplex_in_returns_out ⟨false, false⟩ rfl).1

/-- Disjoint bitwise-or is addition: when `b` fits below bit `k` and `a` has
no bits there, `a ||| b = a + b`. -/
theorem lor_eq_add_of_dvd {a b k : Nat} (hd : 2 ^ k ∣ a) (hb : b < 2 ^ k) :
    a ||| b = a + b := by
  obtain ⟨c, rfl⟩ := hd
  apply Nat.eq_of_testBit_eq
  intro j
  rw [Nat.testBit_lor, Nat.testBit_mul_pow_two_add c hb j, Nat.testBit_mul_pow_two]
  by_cases hj : j < k
  · simp [hj, Nat.not_le.mpr hj]
  · have hk : k ≤ j := Nat.not_lt.mp hj
    have hbf : b.testBit j = false :=
      Nat.testBit_lt_two_pow (lt_of_lt_of_le hb (Nat.pow_le_pow_right (by norm_num) hk))
    simp [hj, hk, hbf]

/-- Decoding the header produced for a `Data` payload of length below `2^24`
recovers tag 0 and the exact length. -/
theorem header_roundtrip (p : List Nat) (h : p.length < 2 ^ 24) :
    msg_from_header (msg_to_header (.data p)) = (0, p.length) := by
  set n := p.length with hn
  show msg_from_header [n % 256, n / 256 % 256, n / 65536 % 256, 7] = (0, n)
  unfold msg_from_header wrappingSub8
  simp only [List.getD_cons_succ, List.getD_cons_zero, Nat.shiftLeft_eq]
  have e1 : n / 65536 % 256 * 2 ^ 16 ||| n / 256 % 256 * 2 ^ 8 =
      n / 65536 % 256 * 2 ^ 16 + n / 256 % 256 * 2 ^ 8 := by
    refine lor_eq_add_of_dvd (k := 16) ⟨n / 65536 % 256, by ring⟩ ?_
    have hlt : n / 256 % 256 < 256 := Nat.mod_lt _ (by norm_num)
    have e8 : (2 : Nat) ^ 8 = 256 := by norm_num
    have e16 : (2 : Nat) ^ 16 = 65536 := by norm_num
    rw [e8, e16]
    omega
  have e2 : n / 65536 % 256 * 2 ^ 16 + n / 256 % 256 * 2 ^ 8 ||| n % 256 =
      n / 65536 % 256 * 2 ^ 16 + n / 256 % 256 * 2 ^ 8 + n % 256 := by
    refine lor_eq_add_of_dvd (k := 8) ⟨n / 65536 % 256 * 2 ^ 8 + n / 256 % 256, by ring⟩
      (Nat.mod_lt _ (by norm_num))
  rw [e1, e2]
  rw [Prod.mk.injEq]
  constructor
  · norm_num
  · have h65536 : n / 65536 % 256 = n / 65536 := by
      apply Nat.mod_eq_of_lt
      omega
    rw [h65536]
    have e16 : (2 : Nat) ^ 16 = 65536 := by norm_num
    have e8 : (2 : Nat) ^ 8 = 256 := by norm_num
    rw [e16, e8]
    omega

/-- Claim C3: for every payload `p` shorter than `2^24` bytes, sending
`Data(p)` with the outgoing side multiplexed emits the 4-byte header followed
by `p`, and reading those bytes back with the incoming side multiplexed
yields `Data(p)` exactly, consuming the whole frame. -/
theorem c3_frame_roundtrip (p : List Nat) (h : p.length < 2 ^ 24) :
    send_message true (.data p) = .ok (msg_to_header (.data p) ++ p) ∧
    read_message true (msg_to_header (.data p) ++ p) = (.ok (.data p), []) := by
  refine ⟨rfl, ?_⟩
  have hlen : (msg_to_header (.data p)).length = 4 := rfl
  unfold read_message
  rw [if_neg (by simp)]
  have h4 : readExact 4 (msg_to_header (.data p) ++ p) = some (msg_to_header (.data p), p) := by
    unfold readExact
    rw [if_pos (by simp [hlen])]
    rw [← hlen, List.take_left, List.drop_left]
  rw [h4]
  simp only [header_roundtrip p h]
  have hp : readExact p.length p = some (p, []) := by
    unfold readExact
    rw [if_pos le_rfl, List.take_length, List.drop_length]
  simp [hp]

/-- Witness for C3 at the one-byte payload `[171]`. -/
theorem c3_witness :
    send_message true (.data [171]) = .ok (msg_to_header (.data [171]) ++ [171]) ∧
    read_message true (msg_to_header (.data [171]) ++ [171]) = (.ok (.data [171]), []) :=
  c3_frame_roundtrip [171] (by decide)

/-- The per-entry fold of `send_file_list` accumulates exactly the
concatenation of the per-entry byte strings. -/
theorem send_file_list_fold (fl : List File) (es : List (List Nat)) (acc : List Nat)
    (h : fl.mapM entry_bytes = some es) :
    fl.foldlM (fun acc f => (entry_bytes f).map (fun e => acc ++ e)) acc =
      some (acc ++ es.flatten) := by
  induction fl generalizing es acc with
  | nil =>
    simp only [List.mapM_nil, pure, Option.some.injEq] at h
    subst h
    simp
  | cons f t ih =>
    rw [List.mapM_cons] at h
    cases hf : entry_bytes f with
    | none => rw [hf] at h; simp at h
    | some e =>
      rw [hf] at h
      simp only [Option.bind_eq_bind, Option.some_bind] at h
      cases ht : t.mapM entry_bytes with
      | none => rw [ht] at h; simp at h
      | some es' =>
        rw [ht] at h
        simp only [Option.some_bind, pure, Option.some.injEq] at h
        subst h
        rw [List.foldlM_cons]
        simp only [hf, Option.map_some', Option.bind_eq_bind, Option.some_bind]
        rw [ih es' (acc ++ e) ht]
        simp

/-- Claim C4: the file-list streamer appends a single `0x00` sentinel after
the encoded entries, unconditionally; the empty list therefore produces a
Data message whose payload is exactly the single byte `00` (wire bytes:
header `01 00 00 07` then payload `00`). -/
theorem c4_list_terminator :
    (∀ fl es, fl.mapM entry_bytes = some es →
      send_file_list_data fl = some (es.flatten ++ [0])) ∧
    send_file_list_data [] = some [0] ∧
    send_file_list [] = some ([1, 0, 0, 7] ++ [0]) := by
  refine ⟨?_, rfl, rfl⟩
  intro fl es h
  unfold send_file_list_data
  rw [send_file_list_fold fl es [] h]
  simp

/-- Witness for C4 on the one-entry list holding the example directory entry
of `main`. -/
theorem c4_witness :
    send_file_list_data [dotMainFile] =
      some (([[4, 0, 1, 46, 0, 164, 1, 5, 0, 0, 0, 237, 1, 0, 0]] : List (List Nat)).flatten
        ++ [0]) :=
  c4_list_terminator.1 [dotMainFile] [[4, 0, 1, 46, 0, 164, 1, 5, 0, 0, 0, 237, 1, 0, 0]]
    (by decide)

/-- `u32::from_str_radix(_, 10)` succeeds exactly on the optionally
`'+'`-signed decimal strings whose value fits in 32 bits, returning that
value. -/
theorem parseU32_eq (s : List Char) :
    parseU32 s = if isDecimalU32Opt s then some (decValOpt s) else none := by
  unfold parseU32 isDecimalU32Opt isDecimalU32 decValOpt
  by_cases he : (stripPlus s).isEmpty = true <;>
    by_cases ha : (stripPlus s).all Char.isDigit = true <;>
      by_cases hb : digitsVal (stripPlus s) < 2 ^ 32 <;>
        simp [he, ha, hb]

/-- Claim C7 (counterexample): the field `"+31"` is not a decimal unsigned
32-bit number, yet the greeting `"@RSYNCD: +31.0"` parses successfully as
version (31, 0) instead of failing with `InvalidVersionNumber`, because
`u32::from_str_radix` accepts an optional leading `'+'`. -/
theorem c7_counterexample :
    isDecimalU32 ['+', '3', '1'] = false ∧
    read_init (greetingHeader ++ ['+', '3', '1', '.', '0']) = .ok ⟨31, 0⟩ :=
  ⟨by decide, rfl⟩

/-- Claim C7 (amended): reading the version greeting fails with
`InvalidHeader` for every line not starting with `"@RSYNCD: "`; otherwise
the remainder is split on `'.'` — no second field yields
`IncompleteVersionSpecifier`, a field that is not a decimal unsigned 32-bit
number (after `u32::from_str_radix`'s optional leading `'+'`) yields
`InvalidVersionNumber`, and for such decimal fields M and m the parse
succeeds with version (M, m). -/
theorem c7_greeting_parse (line : List Char) :
    (¬ greetingHeader.isPrefixOf line →
      read_init line = .error (.clientError .invalidHeader)) ∧
    (greetingHeader.isPrefixOf line →
      ((splitNext (line.drop 9)).2 = none →
        read_init line =
          .error (.clientError (.versionParseError .incompleteVersionSpecifier))) ∧
      (∀ r, (splitNext (line.drop 9)).2 = some r →
        ((isDecimalU32Opt (splitNext (line.drop 9)).1 = false ∨
            isDecimalU32Opt (splitNext r).1 = false) →
          read_init line =
            .error (.clientError (.versionParseError .invalidVersionNumber))) ∧
        (isDecimalU32Opt (splitNext (line.drop 9)).1 = true →
          isDecimalU32Opt (splitNext r).1 = true →
          read_init line =
            .ok ⟨decValOpt (splitNext (line.drop 9)).1, decValOpt (splitNext r).1⟩))) := by
  constructor
  · intro hp
    unfold read_init
    rw [if_neg hp]
  · intro hp
    rcases hsp : splitNext (line.drop 9) with ⟨f1, rem⟩
    constructor
    · intro hnone
      obtain rfl : rem = none := hnone
      unfold read_init Version.parse
      rw [if_pos hp, hsp]
    · intro r hr
      obtain rfl : rem = some r := hr
      constructor
      · intro hbad
        dsimp only at hbad
        unfold read_init Version.parse
        rw [if_pos hp, hsp]
        dsimp only
        rw [parseU32_eq, parseU32_eq]
        cases hbad with
        | inl hbad => simp [hbad]
        | inr hbad =>
          cases hx : isDecimalU32Opt f1 <;> simp [hbad, hx]
      · intro h1 h2
        dsimp only at h1 ⊢
        unfold read_init Version.parse
        rw [if_pos hp, hsp]
        dsimp only
        rw [parseU32_eq, parseU32_eq]
        simp [h1, h2]

/-- Witness for C7 at the canonical greeting `"@RSYNCD: 31.0"`. -/
theorem c7_witness :
    read_init (greetingHeader ++ ['3', '1', '.', '0']) = .ok ⟨31, 0⟩ := by
  have h := (c7_greeting_parse (greetingHeader ++ ['3', '1', '.', '0'])).2 (by decide)
  exact (h.2 ['0'] (by decide)).2 (by decide) (by decide)

/-- Witness for C5 on the concrete stream `[64, 10]` with delimiter `10`. -/
theorem c5_witness :
    read_raw_until true 10 [64, 10] = (.error .rawReadWhileMultiplexed, [64, 10]) ∧
    read_message false [64, 10] = (.error .readMessageWhileNotMultiplexed, [64, 10]) :=
  c5_mode_discipline 10 [64, 10]

/-- Witness for C9 at the newline delimiter. -/
theorem c9_witness : read_line 10 [] = none :=
  c9_read_line_eof_panics 10

end Rssync
